import Mathlib

/-!
Shallow embedding of the shoppingNow backend's order/inventory core:
product stock ledger (product.model), cart aggregate (cart.model +
cart.controller), order aggregate (order.model + order.controller),
SKU generation loop and analytics aggregation.  JS numbers are modelled
as `Int` (or `Rat` where division occurs), object fields as structure
fields, thrown ApiErrors as `Except` errors, and Mongoose pre-save hooks
as explicit functions applied by every `save`-based code path (and, key
to several claims, NOT applied by `findOneAndUpdate`/`bulkWrite` paths,
which bypass document middleware).
-/

namespace ShoppingNow

/-! ## Product model (src/unnamed/part_004, product.model.js) -/

/-- PRODUCT_STATUS enum. -/
inductive ProductStatus where
  | ACTIVE
  | DRAFT
  | OUT_OF_STOCK
  | DISCONTINUED
deriving DecidableEq, Repr

/-- A product document: the fields the claims touch.  `stock`,
`lowStockThreshold`, prices are JS numbers, modelled as `Int`. -/
structure Product where
  id : Nat
  stock : Int
  lowStockThreshold : Int
  status : ProductStatus
  isDeleted : Bool
  sellingPrice : Int
  updatedAt : Nat
deriving DecidableEq, Repr

/-- Virtual `stockStatus`: low-stock branch is evaluated first, then the
out-of-stock branch, else in-stock (part_004 lines 96-100). -/
def stockStatus (p : Product) : String :=
  if p.stock ≤ p.lowStockThreshold then "low-stock"
  else if p.stock = 0 ∨ p.status = ProductStatus.OUT_OF_STOCK then "out-of-stock"
  else "in-stock"

/-- Stock-driven status transition of the first pre-save hook
(part_004 lines 130-137), run only when `stock` was modified. -/
def stockStatusTransition (p : Product) : Product :=
  let p1 := if p.stock = 0 ∧ p.status = ProductStatus.ACTIVE then
    { p with status := ProductStatus.OUT_OF_STOCK } else p
  if p1.stock > 0 ∧ p1.status = ProductStatus.OUT_OF_STOCK then
    { p1 with status := ProductStatus.ACTIVE } else p1

/-- `updateStock` instance method operation argument. -/
inductive StockOp where
  | add
  | subtract
  | set
deriving DecidableEq, Repr

/-- `updateStock(quantity, op)` (part_004 lines 184-197): add is a plain
increment, subtract clamps at 0 via Math.max, default sets to
max(0, quantity). -/
def updateStock (stock : Int) (quantity : Int) : StockOp → Int
  | StockOp.add => stock + quantity
  | StockOp.subtract => max 0 (stock - quantity)
  | StockOp.set => max 0 quantity

/-- Repeated subtraction: apply `updateStock · · subtract` over a list of
quantities. -/
def subtractAll (stock : Int) (qs : List Int) : Int :=
  qs.foldl (fun s q => updateStock s q StockOp.subtract) stock

/-! ### bulkUpdateStock (part_004 lines 233-241)

`bulkUpdateStock(items)` maps each item to a single `updateOne` with
filter on `_id` and `isDeleted: false` and update
`$inc stock by -quantity` plus `$set updatedAt`.  bulkWrite applies the
ops directly at the store: no document middleware runs, so the pre-save
status transition is not part of these updates. -/

/-- One item of the bulk stock decrement. -/
structure BulkItem where
  id : Nat
  quantity : Int
deriving DecidableEq, Repr

/-- Does a product match the op's filter (`_id` equal and not
soft-deleted)? -/
def bulkFilterMatches (it : BulkItem) (p : Product) : Bool :=
  p.id == it.id && !p.isDeleted

/-- The update document applied on a filter match: decrement stock,
set updatedAt.  Nothing else is written. -/
def bulkApplyUpdate (now : Nat) (it : BulkItem) (p : Product) : Product :=
  { p with stock := p.stock - it.quantity, updatedAt := now }

/-- `updateOne` semantics: rewrite the first document matching the
filter, leave the rest untouched. -/
def updateFirstMatch (flt : Product → Bool) (upd : Product → Product) :
    List Product → List Product
  | [] => []
  | p :: ps => if flt p then upd p :: ps else p :: updateFirstMatch flt upd ps

/-- Apply one bulk op to the store. -/
def applyBulkOp (now : Nat) (db : List Product) (it : BulkItem) : List Product :=
  updateFirstMatch (bulkFilterMatches it) (bulkApplyUpdate now it) db

/-- `bulkUpdateStock` as executed by `bulkWrite`: one conditional
updateOne per item, in order. -/
def bulkUpdateStock (now : Nat) (db : List Product) (items : List BulkItem) :
    List Product :=
  items.foldl (applyBulkOp now) db

/-! ## Cart model (src/unnamed/part_001 cart.model.js and
cart.controller.js) -/

/-- One cart line. -/
structure CartItem where
  product : Nat
  quantity : Int
  priceAtAddTime : Int
deriving DecidableEq, Repr

/-- A cart document with its stored (denormalised) totals. -/
structure Cart where
  items : List CartItem
  totalPrice : Int
  totalItems : Int
deriving DecidableEq, Repr

/-- Cart pre-save hook (part_001 lines 44-48): recompute both totals from
the line list. -/
def cartPreSave (c : Cart) : Cart :=
  { c with
    totalPrice := c.items.foldl (fun total i => total + i.quantity * i.priceAtAddTime) 0,
    totalItems := c.items.foldl (fun total i => total + i.quantity) 0 }

/-- `cart.save()`: document save runs the pre-save hook. -/
def cartSave (c : Cart) : Cart := cartPreSave c

/-- The invariant the spec states: stored totals agree with the sums over
the current lines. -/
def cartTotalsConsistent (c : Cart) : Prop :=
  c.totalItems = c.items.foldl (fun total i => total + i.quantity) 0 ∧
  c.totalPrice = c.items.foldl (fun total i => total + i.quantity * i.priceAtAddTime) 0

/-- Rewrite the first cart line satisfying the predicate (JS
`Array.prototype.find` returns the first match, which is then mutated). -/
def updateFirstItem (flt : CartItem → Bool) (upd : CartItem → CartItem) :
    List CartItem → List CartItem
  | [] => []
  | i :: is => if flt i then upd i :: is else i :: updateFirstItem flt upd is

/-- `addtoCart` (cart.controller.js lines 10-45): create the cart with a
single line, or merge into an existing line (incrementing quantity,
keeping the stored priceAtAddTime), or append; then save. -/
def addtoCart (cart : Option Cart) (product : Nat) (quantity : Int)
    (priceAtAddTime : Int) : Cart :=
  match cart with
  | none => cartSave { items := [⟨product, quantity, priceAtAddTime⟩],
                       totalPrice := 0, totalItems := 0 }
  | some c =>
    let items :=
      if c.items.any (fun i => i.product == product) then
        updateFirstItem (fun i => i.product == product)
          (fun i => { i with quantity := i.quantity + quantity }) c.items
      else c.items ++ [⟨product, quantity, priceAtAddTime⟩]
    cartSave { c with items := items }

/-- Errors surfaced by the cart/order controllers (ApiError status
codes). -/
inductive ApiErr where
  | invalidInput
  | notFound
  | emptyCart
  | noItems
deriving DecidableEq, Repr

/-- Remove the list element at an index (JS `splice(idx, 1)`). -/
def removeAt (idx : Nat) (l : List CartItem) : List CartItem :=
  l.take idx ++ l.drop (idx + 1)

/-- `updateCart` (cart.controller.js lines 68-97): negative quantity is
invalid input, absent cart or line is not found, quantity 0 removes the
line, otherwise the line's quantity is overwritten; then save. -/
def updateCart (cart : Option Cart) (productId : Nat) (quantity : Int) :
    Except ApiErr Cart :=
  if quantity < 0 then Except.error ApiErr.invalidInput
  else match cart with
  | none => Except.error ApiErr.notFound
  | some c =>
    match c.items.findIdx? (fun i => i.product == productId) with
    | none => Except.error ApiErr.notFound
    | some idx =>
      if quantity = 0 then Except.ok (cartSave { c with items := removeAt idx c.items })
      else
        let items := updateFirstItem (fun i => i.product == productId)
          (fun i => { i with quantity := quantity }) c.items
        Except.ok (cartSave { c with items := items })

/-- `removeFromCart` (cart.controller.js lines 99-127). -/
def removeFromCart (cart : Option Cart) (productId : Nat) :
    Except ApiErr Cart :=
  match cart with
  | none => Except.error ApiErr.notFound
  | some c =>
    match c.items.findIdx? (fun i => i.product == productId) with
    | none => Except.error ApiErr.notFound
    | some idx => Except.ok (cartSave { c with items := removeAt idx c.items })

/-- `clearCart` (cart.controller.js lines 129-148): empties the lines,
zeroes the totals by hand, then saves (the hook recomputes them again). -/
def clearCart (cart : Option Cart) : Except ApiErr Cart :=
  match cart with
  | none => Except.error ApiErr.notFound
  | some c => Except.ok (cartSave { c with items := [], totalItems := 0, totalPrice := 0 })

/-- The cart-clearing step of `createOrder` (order controller, helpers.js
line 422): `Cart.findOneAndUpdate(.., items: [])`.  A query update
bypasses document middleware, so the pre-save hook does NOT run and the
stored totals are left as they were. -/
def orderCreationClearCart (c : Cart) : Cart :=
  { c with items := [] }

/-! ## Order creation snapshot (order controller in helpers.js,
lines 365-444) -/

/-- A cart line as seen by `createOrder` after
`populate("items.product")`: the line plus the current product document's
selling price. -/
structure PopulatedCartItem where
  productId : Nat
  quantity : Int
  priceAtAddTime : Int
  productSellingPrice : Int
deriving DecidableEq, Repr

/-- An order item snapshot. -/
structure OrderItem where
  product : Nat
  quantity : Int
  unitPrice : Int
  totalPrice : Int
deriving DecidableEq, Repr

/-- The snapshot of one populated cart line (helpers.js lines 389-394):
unitPrice is the product's current sellingPrice, not the cart's stored
priceAtAddTime. -/
def snapshotCartLine (i : PopulatedCartItem) : OrderItem :=
  { product := i.productId, quantity := i.quantity,
    unitPrice := i.productSellingPrice,
    totalPrice := i.productSellingPrice * i.quantity }

/-- The from-cart branch of `createOrder` (helpers.js lines 383-395):
fail with "Cart is empty" when the cart is absent or has no lines, else
snapshot every line. -/
def createOrderItemsFromCart (cart : Option (List PopulatedCartItem)) :
    Except ApiErr (List OrderItem) :=
  match cart with
  | none => Except.error ApiErr.emptyCart
  | some items =>
    if items.isEmpty then Except.error ApiErr.emptyCart
    else Except.ok (items.map snapshotCartLine)

/-- `createOrder`'s order number (helpers.js line 409): the string
`ORD-` followed by `Date.now()`, the current millisecond timestamp.  No
other input enters the string. -/
def generateOrderNumber (nowMs : Nat) : String :=
  "ORD-" ++ Nat.repr nowMs

/-- Persisting an order number against the `unique: true` index of
orderSchema: a duplicate is rejected with a conflict, a fresh number is
stored. -/
def persistOrderNumber (db : List String) (n : String) :
    Except String (List String) :=
  if n ∈ db then Except.error "E11000 duplicate key" else Except.ok (n :: db)

/-! ## Order model (src/src/models/order.model.js) and the order
controller's status operations -/

/-- ORDER_STATUS enum. -/
inductive OrderStatus where
  | processing
  | confirmed
  | shipped
  | out_for_delivery
  | delivered
  | cancelled
  | returned
deriving DecidableEq, Repr

/-- PAYMENT_STATUS enum. -/
inductive PaymentStatus where
  | pending
  | paid
  | failed
  | refunded
deriving DecidableEq, Repr

/-- An order document: the fields the status/payment hooks and the
cancel path touch. -/
structure Order where
  orderNumber : String
  orderStatus : OrderStatus
  paymentStatus : PaymentStatus
  isDelivered : Bool
  deliveredAt : Option Nat
  paidAt : Option Nat
  cancelReason : Option String
  trackingNumber : Option String
  estimatedDelivery : Option Nat
deriving DecidableEq, Repr

/-- The order pre-save hook on an already-persisted document
(order.model.js lines 129-140): Mongoose marks a path modified when it
was assigned a value different from the stored one, so the hook sees
`isModified` exactly when the field changed relative to `prev`.
Transitioning to delivered sets `isDelivered` and, only when it is still
unset, `deliveredAt`; transitioning to paid sets `paidAt` when unset. -/
def orderPreSave (prev : Order) (o : Order) (now : Nat) : Order :=
  let o1 :=
    if o.orderStatus ≠ prev.orderStatus ∧ o.orderStatus = OrderStatus.delivered then
      { o with isDelivered := true,
               deliveredAt := match o.deliveredAt with
                 | none => some now
                 | some t => some t }
    else o
  if o1.paymentStatus ≠ prev.paymentStatus ∧ o1.paymentStatus = PaymentStatus.paid
      ∧ o1.paidAt = none then
    { o1 with paidAt := some now }
  else o1

/-- `canBeCancelled` (order.model.js lines 155-157). -/
def canBeCancelled (o : Order) : Bool :=
  o.orderStatus = OrderStatus.processing ∨ o.orderStatus = OrderStatus.confirmed

/-- `updateOrderStatus` (order controller, helpers.js lines 491-511) on a
found order: assign the status and the optional side-channel fields,
then save, which runs the pre-save hook. -/
def applyTrackingNumber (o : Order) : Option String → Order
  | none => o
  | some t => { o with trackingNumber := some t }

def applyEstimatedDelivery (o : Order) : Option Nat → Order
  | none => o
  | some d => { o with estimatedDelivery := some d }

def updateOrderStatus (o : Order) (status : OrderStatus)
    (trackingNumber : Option String) (estimatedDelivery : Option Nat)
    (now : Nat) : Order :=
  let o1 := { o with orderStatus := status }
  let o2 := applyTrackingNumber o1 trackingNumber
  let o3 := applyEstimatedDelivery o2 estimatedDelivery
  orderPreSave o o3 now

/-- `cancelOrder` (order controller, helpers.js lines 554-574) on a found
order: reject with a 400 invalid-transition error unless
`canBeCancelled`, else set status cancelled, record the reason and
save. -/
inductive CancelErr where
  | invalidTransition
deriving DecidableEq, Repr

def cancelOrder (o : Order) (reason : Option String) (now : Nat) :
    Except CancelErr Order :=
  if canBeCancelled o then
    let upd := { o with orderStatus := OrderStatus.cancelled, cancelReason := reason }
    Except.ok (orderPreSave o upd now)
  else Except.error CancelErr.invalidTransition

/-! ## SKU generation loop (part_004 lines 141-156, part_006) -/

/-- The SKU pre-save loop, fuel-indexed.  `collides c` models
`!!(await Product.findOne(sku: c))` and `gen k` the k-th candidate
produced by `generateRandomSKU()`.  The source loop
`while (exists) : newSKU = generateRandomSKU(); exists = !!found`
keeps drawing candidates while they collide and on exit assigns the
uppercased candidate; it contains no retry cap and no failure path. -/
def skuLoop (collides : String → Bool) (gen : Nat → String) :
    Nat → Nat → Option String
  | _, 0 => none
  | k, fuel + 1 =>
    let c := gen k
    if collides c then skuLoop collides gen (k + 1) fuel
    else some c

/-- On loop exit the source assigns `this.sku = newSKU.toUpperCase()`. -/
def skuAssign (collides : String → Bool) (gen : Nat → String) (fuel : Nat) :
    Option String :=
  (skuLoop collides gen 0 fuel).map String.toUpper

/-- The loop, run as the source runs it (unfuelled `while`): it produces
a value exactly when some finite amount of fuel suffices. -/
def skuAssignTerminates (collides : String → Bool) (gen : Nat → String) : Prop :=
  ∃ fuel, (skuLoop collides gen 0 fuel).isSome

/-! ## Order analytics (order controller, helpers.js lines 598-630) -/

/-- An order as the analytics aggregation reads it. -/
structure AnalyticsOrder where
  createdAtMs : Nat
  totalAmount : Rat
  orderStatus : OrderStatus
deriving DecidableEq, Repr

/-- The `$group` output document. -/
structure AnalyticsSummary where
  totalOrders : Nat
  totalRevenue : Rat
  avgOrderValue : Rat
  cancelledOrders : Nat
  deliveredOrders : Nat
deriving DecidableEq, Repr

/-- `createdAt >= startDate` with `startDate = now - days` expressed in
milliseconds. -/
def inAnalyticsWindow (nowMs : Nat) (days : Nat) (o : AnalyticsOrder) : Bool :=
  nowMs - days * 86400000 ≤ o.createdAtMs

/-- The summary pipeline of `getOrderAnalytics`: `$match` on the window
then a single `$group` over the matched documents.  A `$group` over zero
documents produces no output document at all, and the controller then
returns `analytics[0] || ` an empty object — modelled as `none`. -/
def getOrderAnalyticsSummary (orders : List AnalyticsOrder) (nowMs : Nat)
    (days : Nat) : Option AnalyticsSummary :=
  let matched := orders.filter (inAnalyticsWindow nowMs days)
  if matched.isEmpty then none
  else some
    { totalOrders := matched.length,
      totalRevenue := (matched.map (fun o => o.totalAmount)).sum,
      avgOrderValue := (matched.map (fun o => o.totalAmount)).sum / matched.length,
      cancelledOrders := (matched.filter
        (fun o => o.orderStatus = OrderStatus.cancelled)).length,
      deliveredOrders := (matched.filter
        (fun o => o.orderStatus = OrderStatus.delivered)).length }

/-! ## Helper lemmas -/

/-- Every save-based cart write restores the totals invariant, because
the pre-save hook recomputes both totals from the line list. -/
theorem cartSave_totalsConsistent (c : Cart) : cartTotalsConsistent (cartSave c) :=
  ⟨rfl, rfl⟩

theorem subtractAll_nonneg (qs : List Int) :
    ∀ s : Int, 0 ≤ s → 0 ≤ subtractAll s qs := by
  induction qs with
  | nil => intro s hs; simpa [subtractAll] using hs
  | cons a l ih =>
    intro s _
    exact ih (max 0 (s - a)) (le_max_left 0 (s - a))

theorem updateFirstMatch_map_status (flt : Product → Bool)
    (upd : Product → Product) (hupd : ∀ p, (upd p).status = p.status) :
    ∀ l : List Product,
      (updateFirstMatch flt upd l).map (fun p => p.status) =
        l.map (fun p => p.status) := by
  intro l
  induction l with
  | nil => rfl
  | cons p ps ih =>
    by_cases h : flt p
    · simp [updateFirstMatch, h, hupd p]
    · simp [updateFirstMatch, h, ih]

theorem bulkUpdateStock_map_status (now : Nat) (items : List BulkItem) :
    ∀ db : List Product,
      (bulkUpdateStock now db items).map (fun p => p.status) =
        db.map (fun p => p.status) := by
  induction items with
  | nil => intro db; rfl
  | cons it rest ih =>
    intro db
    have hstep : (applyBulkOp now db it).map (fun p => p.status) =
        db.map (fun p => p.status) :=
      updateFirstMatch_map_status (bulkFilterMatches it) (bulkApplyUpdate now it)
        (fun _ => rfl) db
    calc (bulkUpdateStock now db (it :: rest)).map (fun p => p.status)
        = (bulkUpdateStock now (applyBulkOp now db it) rest).map (fun p => p.status) := rfl
      _ = (applyBulkOp now db it).map (fun p => p.status) := ih _
      _ = db.map (fun p => p.status) := hstep

/-! ## Claims -/

/-- C5: adjustStock with subtract sets stock to max 0 (stock - delta) and
never goes negative over any sequence of subtract calls; with add it
increases stock by delta without any upper bound. -/
theorem updateStock_subtract_clamps_and_add_unbounded (s q : Int)
    (qs : List Int) (h : 0 ≤ s) :
    updateStock s q StockOp.subtract = max 0 (s - q) ∧
    updateStock s q StockOp.add = s + q ∧
    0 ≤ subtractAll s qs :=
  ⟨rfl, rfl, subtractAll_nonneg qs s h⟩

/-- C5 witness: concrete instance at stock 5, delta 3 and the subtract
sequence [3, 7]. -/
theorem updateStock_subtract_clamps_and_add_unbounded_witness :
    (0:Int) ≤ 5 ∧
    (updateStock 5 3 StockOp.subtract = max 0 (5 - 3) ∧
     updateStock 5 3 StockOp.add = 5 + 3 ∧
     0 ≤ subtractAll 5 [3, 7]) :=
  ⟨by decide, updateStock_subtract_clamps_and_add_unbounded 5 3 [3, 7] (by decide)⟩

/-- C10: with stock 0 and a non-negative lowStockThreshold the virtual
stockStatus reports low-stock, because the low-stock branch is tested
first; out-of-stock is reported exactly when stock exceeds the threshold
while the stored status is OUT_OF_STOCK. -/
theorem stockStatus_zero_stock_is_low_stock (p : Product)
    (h : 0 ≤ p.lowStockThreshold) :
    (p.stock = 0 → stockStatus p = "low-stock") ∧
    (stockStatus p = "out-of-stock" ↔
      p.lowStockThreshold < p.stock ∧ p.status = ProductStatus.OUT_OF_STOCK) := by
  constructor
  · intro h0
    have hle : p.stock ≤ p.lowStockThreshold := by omega
    simp [stockStatus, hle]
  · by_cases hle : p.stock ≤ p.lowStockThreshold
    · have hout : ¬ p.lowStockThreshold < p.stock := not_lt.mpr hle
      simp [stockStatus, hle, hout]
    · have hpos : ¬ p.stock = 0 := by omega
      by_cases hst : p.status = ProductStatus.OUT_OF_STOCK
      · simp [stockStatus, hle, hpos, hst, not_le.mp hle]
      · simp [stockStatus, hle, hpos, hst]

/-- C10 witness: a product with stock 0, threshold 10 and stored status
OUT_OF_STOCK still reads as low-stock. -/
theorem stockStatus_zero_stock_is_low_stock_witness :
    (0:Int) ≤ (Product.mk 7 0 10 ProductStatus.OUT_OF_STOCK false 100 0).lowStockThreshold ∧
    (((Product.mk 7 0 10 ProductStatus.OUT_OF_STOCK false 100 0).stock = 0 →
       stockStatus (Product.mk 7 0 10 ProductStatus.OUT_OF_STOCK false 100 0) = "low-stock") ∧
     (stockStatus (Product.mk 7 0 10 ProductStatus.OUT_OF_STOCK false 100 0) = "out-of-stock" ↔
       (Product.mk 7 0 10 ProductStatus.OUT_OF_STOCK false 100 0).lowStockThreshold <
         (Product.mk 7 0 10 ProductStatus.OUT_OF_STOCK false 100 0).stock ∧
       (Product.mk 7 0 10 ProductStatus.OUT_OF_STOCK false 100 0).status =
         ProductStatus.OUT_OF_STOCK)) :=
  ⟨by decide, stockStatus_zero_stock_is_low_stock _ (by decide)⟩

/-- C2 counterexample: one bulk decrement of quantity 2 against a product
with stock 2 and status ACTIVE leaves the stock at 0 but the status
still ACTIVE, while the derived transition of the pre-save hook would
have flipped it to OUT_OF_STOCK: the status transition is not part of
the bulk update. -/
theorem bulkUpdateStock_no_status_transition_at_zero :
    bulkUpdateStock 5 [Product.mk 1 2 10 ProductStatus.ACTIVE false 100 0]
        [BulkItem.mk 1 2] =
      [Product.mk 1 0 10 ProductStatus.ACTIVE false 100 5] ∧
    (stockStatusTransition (Product.mk 1 0 10 ProductStatus.ACTIVE false 100 5)).status =
      ProductStatus.OUT_OF_STOCK ∧
    ProductStatus.ACTIVE ≠ ProductStatus.OUT_OF_STOCK := by
  refine ⟨by decide, by decide, by decide⟩

/-- C2 amended: bulkUpdateStock builds one conditional update per item —
decrement stock by the item quantity (and bump updatedAt) only when the
product id matches and the product is not soft-deleted — and every
product's status is left unchanged by the whole bulk write. -/
theorem bulkUpdateStock_conditional_decrement_status_unchanged (now : Nat)
    (db : List Product) (items : List BulkItem) (it : BulkItem) (p : Product) :
    (bulkUpdateStock now db items).map (fun q => q.status) =
      db.map (fun q => q.status) ∧
    applyBulkOp now [p] it =
      (if p.id = it.id ∧ p.isDeleted = false then [bulkApplyUpdate now it p]
       else [p]) := by
  refine ⟨bulkUpdateStock_map_status now items db, ?_⟩
  by_cases hid : p.id = it.id
  · by_cases hdel : p.isDeleted
    · simp [applyBulkOp, updateFirstMatch, bulkFilterMatches, hid, hdel]
    · simp [applyBulkOp, updateFirstMatch, bulkFilterMatches, hid, hdel]
  · simp [applyBulkOp, updateFirstMatch, bulkFilterMatches, hid]

/-! ### Field bookkeeping for the order hook -/

theorem applyTrackingNumber_orderStatus (o : Order) (t : Option String) :
    (applyTrackingNumber o t).orderStatus = o.orderStatus := by cases t <;> rfl

theorem applyTrackingNumber_deliveredAt (o : Order) (t : Option String) :
    (applyTrackingNumber o t).deliveredAt = o.deliveredAt := by cases t <;> rfl

theorem applyTrackingNumber_isDelivered (o : Order) (t : Option String) :
    (applyTrackingNumber o t).isDelivered = o.isDelivered := by cases t <;> rfl

theorem applyTrackingNumber_paymentStatus (o : Order) (t : Option String) :
    (applyTrackingNumber o t).paymentStatus = o.paymentStatus := by cases t <;> rfl

theorem applyEstimatedDelivery_orderStatus (o : Order) (d : Option Nat) :
    (applyEstimatedDelivery o d).orderStatus = o.orderStatus := by cases d <;> rfl

theorem applyEstimatedDelivery_deliveredAt (o : Order) (d : Option Nat) :
    (applyEstimatedDelivery o d).deliveredAt = o.deliveredAt := by cases d <;> rfl

theorem applyEstimatedDelivery_isDelivered (o : Order) (d : Option Nat) :
    (applyEstimatedDelivery o d).isDelivered = o.isDelivered := by cases d <;> rfl

theorem applyEstimatedDelivery_paymentStatus (o : Order) (d : Option Nat) :
    (applyEstimatedDelivery o d).paymentStatus = o.paymentStatus := by cases d <;> rfl

theorem orderPreSave_orderStatus (prev o : Order) (now : Nat) :
    (orderPreSave prev o now).orderStatus = o.orderStatus := by
  simp only [orderPreSave]
  split_ifs <;> rfl

theorem orderPreSave_deliveredAt (prev o : Order) (now : Nat) :
    (orderPreSave prev o now).deliveredAt =
      if o.orderStatus ≠ prev.orderStatus ∧ o.orderStatus = OrderStatus.delivered then
        (match o.deliveredAt with | none => some now | some t => some t)
      else o.deliveredAt := by
  simp only [orderPreSave]
  split_ifs <;> rfl

theorem orderPreSave_isDelivered (prev o : Order) (now : Nat) :
    (orderPreSave prev o now).isDelivered =
      if o.orderStatus ≠ prev.orderStatus ∧ o.orderStatus = OrderStatus.delivered then
        true
      else o.isDelivered := by
  simp only [orderPreSave]
  split_ifs <;> rfl

/-- On the cancel path the pre-save hook is a no-op: the new status is
cancelled, not delivered, and the payment status is untouched. -/
theorem cancelOrder_eq (o : Order) (reason : Option String) (now : Nat) :
    cancelOrder o reason now =
      if canBeCancelled o then
        Except.ok { o with orderStatus := OrderStatus.cancelled, cancelReason := reason }
      else Except.error CancelErr.invalidTransition := by
  simp [cancelOrder, orderPreSave]

/-- C3: cancelOrder succeeds — yielding the order with status cancelled
and the cancel reason recorded — exactly when the current status is
processing or confirmed, and fails with the invalid-transition error for
every other status. -/
theorem cancelOrder_succeeds_iff_processing_or_confirmed (o : Order)
    (reason : Option String) (now : Nat) :
    ((∃ o2, cancelOrder o reason now = Except.ok o2 ∧
        o2.orderStatus = OrderStatus.cancelled ∧ o2.cancelReason = reason) ↔
      (o.orderStatus = OrderStatus.processing ∨
       o.orderStatus = OrderStatus.confirmed)) ∧
    (cancelOrder o reason now = Except.error CancelErr.invalidTransition ↔
      ¬(o.orderStatus = OrderStatus.processing ∨
        o.orderStatus = OrderStatus.confirmed)) := by
  by_cases hc : o.orderStatus = OrderStatus.processing ∨
      o.orderStatus = OrderStatus.confirmed
  · have hb : canBeCancelled o = true := by
      simp [canBeCancelled]
      exact hc
    rw [cancelOrder_eq]
    simp only [hb, if_true]
    refine ⟨⟨fun _ => hc, fun _ => ⟨_, rfl, rfl, rfl⟩⟩, ?_, fun hn => absurd hc hn⟩
    intro he
    exact absurd he (by simp)
  · have hb : canBeCancelled o = false := by
      simp only [canBeCancelled, decide_eq_false_iff_not]
      exact hc
    rw [cancelOrder_eq]
    simp only [hb, Bool.false_eq_true, if_false]
    constructor
    · constructor
      · rintro ⟨o2, ho2, -⟩
        exact absurd ho2 (by simp)
      · intro h
        exact absurd h hc
    · constructor
      · intro _
        exact hc
      · intro _
        trivial

/-- A processing order, as createOrder persists them. -/
def procOrder : Order :=
  ⟨"ORD-1700000000000", OrderStatus.processing, PaymentStatus.pending,
   false, none, none, none, none, none⟩

/-- C3 witness: the characterisation applied to a concrete processing
order. -/
theorem cancelOrder_succeeds_iff_processing_or_confirmed_witness :
    ((∃ o2, cancelOrder procOrder (some "changed my mind") 9 = Except.ok o2 ∧
        o2.orderStatus = OrderStatus.cancelled ∧
        o2.cancelReason = some "changed my mind") ↔
      (procOrder.orderStatus = OrderStatus.processing ∨
       procOrder.orderStatus = OrderStatus.confirmed)) ∧
    (cancelOrder procOrder (some "changed my mind") 9 =
        Except.error CancelErr.invalidTransition ↔
      ¬(procOrder.orderStatus = OrderStatus.processing ∨
        procOrder.orderStatus = OrderStatus.confirmed)) :=
  cancelOrder_succeeds_iff_processing_or_confirmed procOrder (some "changed my mind") 9

/-- Field characterisation of one updateOrderStatus call. -/
theorem updateOrderStatus_fields (o : Order) (status : OrderStatus)
    (tn : Option String) (ed : Option Nat) (now : Nat) :
    (updateOrderStatus o status tn ed now).orderStatus = status ∧
    (updateOrderStatus o status tn ed now).isDelivered =
      (if status ≠ o.orderStatus ∧ status = OrderStatus.delivered then true
       else o.isDelivered) ∧
    (updateOrderStatus o status tn ed now).deliveredAt =
      (if status ≠ o.orderStatus ∧ status = OrderStatus.delivered then
        (match o.deliveredAt with | none => some now | some t => some t)
       else o.deliveredAt) := by
  refine ⟨?_, ?_, ?_⟩
  · simp [updateOrderStatus, orderPreSave_orderStatus,
      applyEstimatedDelivery_orderStatus, applyTrackingNumber_orderStatus]
  · simp [updateOrderStatus, orderPreSave_isDelivered,
      applyEstimatedDelivery_orderStatus, applyTrackingNumber_orderStatus,
      applyEstimatedDelivery_isDelivered, applyTrackingNumber_isDelivered]
  · simp [updateOrderStatus, orderPreSave_deliveredAt,
      applyEstimatedDelivery_orderStatus, applyTrackingNumber_orderStatus,
      applyEstimatedDelivery_deliveredAt, applyTrackingNumber_deliveredAt]

/-- C9: the first delivered transition sets isDelivered and stamps
deliveredAt with the current time; re-applying updateOrderStatus with
delivered afterwards leaves deliveredAt at its original value. -/
theorem updateOrderStatus_delivered_idempotent (o : Order)
    (tn1 tn2 : Option String) (ed1 ed2 : Option Nat) (now1 now2 : Nat)
    (hst : o.orderStatus ≠ OrderStatus.delivered) (hda : o.deliveredAt = none) :
    (updateOrderStatus o OrderStatus.delivered tn1 ed1 now1).isDelivered = true ∧
    (updateOrderStatus o OrderStatus.delivered tn1 ed1 now1).deliveredAt = some now1 ∧
    (updateOrderStatus (updateOrderStatus o OrderStatus.delivered tn1 ed1 now1)
        OrderStatus.delivered tn2 ed2 now2).isDelivered = true ∧
    (updateOrderStatus (updateOrderStatus o OrderStatus.delivered tn1 ed1 now1)
        OrderStatus.delivered tn2 ed2 now2).deliveredAt = some now1 := by
  have hne : OrderStatus.delivered ≠ o.orderStatus := fun h => hst h.symm
  obtain ⟨hs1, hi1, hd1⟩ :=
    updateOrderStatus_fields o OrderStatus.delivered tn1 ed1 now1
  have hcond1 : OrderStatus.delivered ≠ o.orderStatus ∧
      OrderStatus.delivered = OrderStatus.delivered := ⟨hne, rfl⟩
  rw [if_pos hcond1] at hi1 hd1
  rw [hda] at hd1
  have hd1s : (updateOrderStatus o OrderStatus.delivered tn1 ed1 now1).deliveredAt
      = some now1 := hd1.trans rfl
  obtain ⟨hs2, hi2, hd2⟩ := updateOrderStatus_fields
    (updateOrderStatus o OrderStatus.delivered tn1 ed1 now1)
    OrderStatus.delivered tn2 ed2 now2
  have hcond2 : ¬(OrderStatus.delivered ≠
      (updateOrderStatus o OrderStatus.delivered tn1 ed1 now1).orderStatus ∧
      OrderStatus.delivered = OrderStatus.delivered) := by
    rw [hs1]
    simp
  rw [if_neg hcond2] at hi2 hd2
  exact ⟨hi1, hd1s, hi2.trans hi1, hd2.trans hd1s⟩

/-- C9 witness: a concrete processing order delivered at time 100 and
re-delivered at time 200 keeps deliveredAt = 100. -/
theorem updateOrderStatus_delivered_idempotent_witness :
    (updateOrderStatus procOrder OrderStatus.delivered none none 100).isDelivered = true ∧
    (updateOrderStatus procOrder OrderStatus.delivered none none 100).deliveredAt = some 100 ∧
    (updateOrderStatus (updateOrderStatus procOrder OrderStatus.delivered none none 100)
        OrderStatus.delivered none none 200).isDelivered = true ∧
    (updateOrderStatus (updateOrderStatus procOrder OrderStatus.delivered none none 100)
        OrderStatus.delivered none none 200).deliveredAt = some 100 :=
  updateOrderStatus_delivered_idempotent procOrder none none none none 100 200
    (by decide) rfl

/-- C1: the cart totals invariant.  Every controller mutation
(addtoCart, updateCart, removeFromCart, clearCart) goes through
`cart.save()` and so restores consistency (see
`cartSave_totalsConsistent`), but the cart-clearing step of order
creation uses `findOneAndUpdate`, which bypasses the pre-save hook:
starting from a saved cart with one line of quantity 2 at price 10, the
clear leaves items empty while totalItems stays 2 and totalPrice stays
20 — the claimed invariant fails at this mutation. -/
theorem orderCreationClearCart_leaves_stale_totals :
    addtoCart none 1 2 10 = Cart.mk [CartItem.mk 1 2 10] 20 2 ∧
    orderCreationClearCart (addtoCart none 1 2 10) = Cart.mk [] 20 2 ∧
    ¬ cartTotalsConsistent (orderCreationClearCart (addtoCart none 1 2 10)) := by
  refine ⟨by decide, by decide, ?_⟩
  intro hcons
  have h2 := hcons.1
  revert h2
  decide

/-- Auxiliary for C4: each snapshotted order item lines up with its cart
line. -/
theorem forall2_snapshotCartLine (items : List PopulatedCartItem) :
    List.Forall₂ (fun (line : PopulatedCartItem) (oi : OrderItem) =>
      oi.unitPrice = line.productSellingPrice ∧
      oi.totalPrice = line.quantity * oi.unitPrice ∧
      oi.quantity = line.quantity ∧ oi.product = line.productId)
      items (items.map snapshotCartLine) := by
  induction items with
  | nil => exact List.Forall₂.nil
  | cons a l ih =>
    exact List.Forall₂.cons ⟨rfl, Int.mul_comm _ _, rfl, rfl⟩ ih

/-- C4: ordering from a non-empty cart snapshots every line with
unitPrice equal to the populated product's current sellingPrice (not the
stored priceAtAddTime) and totalPrice equal to quantity times that unit
price. -/
theorem createOrderItemsFromCart_snapshots_current_price
    (items : List PopulatedCartItem) (h : items ≠ []) :
    createOrderItemsFromCart (some items) =
      Except.ok (items.map snapshotCartLine) ∧
    List.Forall₂ (fun (line : PopulatedCartItem) (oi : OrderItem) =>
      oi.unitPrice = line.productSellingPrice ∧
      oi.totalPrice = line.quantity * oi.unitPrice ∧
      oi.quantity = line.quantity ∧ oi.product = line.productId)
      items (items.map snapshotCartLine) := by
  refine ⟨?_, forall2_snapshotCartLine items⟩
  simp [createOrderItemsFromCart, h]

/-- C4 witness: one line added at price 10 whose product now sells at
15 becomes an order item with unitPrice 15 and totalPrice 30. -/
theorem createOrderItemsFromCart_snapshots_current_price_witness :
    createOrderItemsFromCart (some [PopulatedCartItem.mk 1 2 10 15]) =
      Except.ok ([PopulatedCartItem.mk 1 2 10 15].map snapshotCartLine) ∧
    List.Forall₂ (fun (line : PopulatedCartItem) (oi : OrderItem) =>
      oi.unitPrice = line.productSellingPrice ∧
      oi.totalPrice = line.quantity * oi.unitPrice ∧
      oi.quantity = line.quantity ∧ oi.product = line.productId)
      [PopulatedCartItem.mk 1 2 10 15]
      ([PopulatedCartItem.mk 1 2 10 15].map snapshotCartLine) :=
  createOrderItemsFromCart_snapshots_current_price
    [PopulatedCartItem.mk 1 2 10 15] (by decide)

/-- Under sustained collisions the SKU loop makes no progress no matter
how much fuel it is given. -/
theorem skuLoop_all_collide_eq_none (collides : String → Bool)
    (gen : Nat → String) (h : ∀ s, collides s = true) :
    ∀ fuel k, skuLoop collides gen k fuel = none := by
  intro fuel
  induction fuel with
  | zero => intro k; rfl
  | succ n ih =>
    intro k
    simp [skuLoop, h (gen k)]
    exact ih (k + 1)

/-- C6 counterexample: with every candidate colliding with a persisted
SKU, the generation loop never terminates — there is no retry bound and
no SKUExhausted failure, contrary to the claim. -/
theorem skuLoop_diverges_under_sustained_collisions :
    ¬ skuAssignTerminates (fun _ => true) (fun _ => "AAA-1111-BBB") := by
  rintro ⟨fuel, hf⟩
  rw [skuLoop_all_collide_eq_none (fun _ => true) (fun _ => "AAA-1111-BBB")
    (fun _ => rfl) fuel 0] at hf
  simp at hf

/-- C6 amended: the loop is unbounded — while candidates collide it only
retries (returning nothing for any finite fuel, never a SKUExhausted
error), and whenever it terminates it does so by returning the
uppercased form of a candidate that did not collide. -/
theorem skuLoop_unbounded_no_failure (collides : String → Bool)
    (gen : Nat → String) :
    ((∀ k, collides (gen k) = true) →
      ∀ fuel k, skuLoop collides gen k fuel = none) ∧
    (∀ fuel k s, skuLoop collides gen k fuel = some s →
      ∃ j, collides (gen j) = false ∧ s = gen j) := by
  constructor
  · intro h fuel k
    induction fuel generalizing k with
    | zero => rfl
    | succ n ih =>
      simp [skuLoop, h k]
      exact ih (k + 1)
  · intro fuel
    induction fuel with
    | zero => intro k s hs; cases hs
    | succ n ih =>
      intro k s hs
      by_cases hcol : collides (gen k) = true
      · rw [skuLoop, if_pos hcol] at hs
        exact ih (k + 1) s hs
      · rw [skuLoop, if_neg hcol] at hs
        exact ⟨k, Bool.not_eq_true _ ▸ hcol, (Option.some.injEq _ _ ▸ hs).symm⟩

/-- The assigned SKU is the uppercased first non-colliding candidate. -/
theorem skuAssign_eq_toUpper_of_fresh (collides : String → Bool)
    (gen : Nat → String) (fuel : Nat) (s : String)
    (h : skuLoop collides gen 0 fuel = some s) :
    skuAssign collides gen fuel = some s.toUpper := by
  simp [skuAssign, h]

/-- C6 witness: under sustained collisions three units of fuel still
yield nothing, and a terminating run on a never-colliding store returns
the uppercased candidate. -/
theorem skuLoop_unbounded_no_failure_witness :
    skuLoop (fun _ => true) (fun _ => "abc-1234-xyz") 0 3 = none ∧
    ∃ j, (fun _ => false) ((fun _ : Nat => "abc-1234-xyz") j) = false ∧
      "abc-1234-xyz" = (fun _ : Nat => "abc-1234-xyz") j :=
  ⟨(skuLoop_unbounded_no_failure (fun _ => true) (fun _ => "abc-1234-xyz")).1
      (fun _ => rfl) 3 0,
   (skuLoop_unbounded_no_failure (fun _ => false) (fun _ => "abc-1234-xyz")).2
      1 0 "abc-1234-xyz" (by decide)⟩

/-- C7 counterexample: with zero orders the aggregation produces no group
document, so the summary is the empty object (modelled `none`) — it does
not carry totalOrders = 0, totalRevenue = 0, avgOrderValue = 0 as the
claim states. -/
theorem getOrderAnalyticsSummary_zero_orders_is_empty_object :
    getOrderAnalyticsSummary [] 1700000000000 30 = none ∧
    getOrderAnalyticsSummary [] 1700000000000 30 ≠
      some (AnalyticsSummary.mk 0 0 0 0 0) := by
  refine ⟨rfl, ?_⟩
  intro h
  cases h

/-- C7 amended: whenever no order falls inside the window the summary is
the empty object `none` — the pipeline tolerates zero orders without an
error and without dividing by zero, but reports missing fields rather
than zeros. -/
theorem getOrderAnalyticsSummary_empty_window (orders : List AnalyticsOrder)
    (nowMs days : Nat)
    (h : orders.filter (inAnalyticsWindow nowMs days) = []) :
    getOrderAnalyticsSummary orders nowMs days = none := by
  simp [getOrderAnalyticsSummary, h]

/-- C7 witness: a single order created at time 0 lies outside a window
starting at 1700000000000. -/
theorem getOrderAnalyticsSummary_empty_window_witness :
    getOrderAnalyticsSummary [AnalyticsOrder.mk 0 5 OrderStatus.processing]
      1700000000000 0 = none :=
  getOrderAnalyticsSummary_empty_window
    [AnalyticsOrder.mk 0 5 OrderStatus.processing] 1700000000000 0 (by decide)

/-- C8 counterexample: createOrder's order number is exactly `ORD-`
followed by the millisecond timestamp — no random suffix — so two calls
observing the same millisecond generate the identical number, and the
unique index rejects the second persist instead of producing a distinct
number. -/
theorem generateOrderNumber_same_ms_collides :
    generateOrderNumber 1700000000000 = "ORD-1700000000000" ∧
    persistOrderNumber [] (generateOrderNumber 1700000000000) =
      Except.ok ["ORD-1700000000000"] ∧
    persistOrderNumber ["ORD-1700000000000"] (generateOrderNumber 1700000000000) =
      Except.error "E11000 duplicate key" := by
  refine ⟨by decide, rfl, rfl⟩

/-- C8 amended: the generated order number is deterministic in the
timestamp alone (`ORD-` + Date.now(), no random suffix); distinctness of
persisted order numbers is enforced only by the schema's unique index,
which accepts a fresh number and rejects a duplicate of an
already-persisted one. -/
theorem generateOrderNumber_deterministic_unique_by_index (t : Nat)
    (db : List String) (h : generateOrderNumber t ∉ db) :
    generateOrderNumber t = "ORD-" ++ Nat.repr t ∧
    persistOrderNumber db (generateOrderNumber t) =
      Except.ok (generateOrderNumber t :: db) ∧
    persistOrderNumber (generateOrderNumber t :: db) (generateOrderNumber t) =
      Except.error "E11000 duplicate key" := by
  refine ⟨rfl, ?_, ?_⟩
  · simp [persistOrderNumber, h]
  · simp [persistOrderNumber]

/-- C8 witness: the amended statement at timestamp 1 against an empty
store. -/
theorem generateOrderNumber_deterministic_unique_by_index_witness :
    generateOrderNumber 1 = "ORD-" ++ Nat.repr 1 ∧
    persistOrderNumber [] (generateOrderNumber 1) =
      Except.ok (generateOrderNumber 1 :: []) ∧
    persistOrderNumber (generateOrderNumber 1 :: []) (generateOrderNumber 1) =
      Except.error "E11000 duplicate key" :=
  generateOrderNumber_deterministic_unique_by_index 1 [] (by decide)

end ShoppingNow
